import Mathlib

/-!
Shallow embedding of the cces-rs instruction encoding and processor core.

Rust sources embedded here:
* `src/instructions.rs` — the first instruction catalog (`InstructionsRs` namespace);
* `src/creature.rs` — the second instruction catalog plus `CreatureMemory` and
  `Creature` (`CreatureRs` namespace);
* `src/main.rs` — the small prototype catalog (`MainRs` namespace);
* `src/processor.rs` — the generic `InstructionCall` with its arity-checked
  builders (`ProcessorRs` namespace).

Machine integers (`u8`, `u64`, `usize`) are modelled as `Nat`; the `u8` range
check of `to_u8` is explicit.  Fallible Rust functions returning
`Result<_, ()>` are modelled with `Except Unit _`, and `Option` stays `Option`.
-/

deriving instance DecidableEq for Except

namespace InstructionsRs

/-- The instruction enum of `src/instructions.rs`.  The most significant six
bits of each discriminant are the opcode ID and the least significant two bits
are the argument count. -/
inductive Instruction where
  | None
  | Move
  | Jump
  | RotateCW
  | RotateCCW
  | ClearA
  | ClearB
  | Goto
  | GotoCondAGtB
  | GotoCondEq
  | SwapAB
  | StoreATmp
  | StoreBTmp
  | LoadTmpA
  | LoadTmpB
  | StoreHealthTmp
  | StoreHungerTmp
  | StoreLOSCTmp
  | UAddA
  | UAddB
  | IAddA
  | IAddB
  | BitAndATmp
  | BitAndBTmp
  | BitOrATmp
  | BitOrBTmp
  | BitXorATmp
  | BitXorBTmp
deriving DecidableEq, Repr, Fintype

/-- The `repr(u8)` discriminant assigned to each variant in the enum
declaration of `src/instructions.rs` (written there in `0bXXXXXX_YY` form). -/
def discr : Instruction → Nat
  | .None => 0b00000000
  | .Move => 0b00000100
  | .Jump => 0b00001000
  | .RotateCW => 0b00010000
  | .RotateCCW => 0b00011000
  | .ClearA => 0b00100000
  | .ClearB => 0b00100100
  | .Goto => 0b01000001
  | .GotoCondAGtB => 0b01100001
  | .GotoCondEq => 0b01100101
  | .SwapAB => 0b01001100
  | .StoreATmp => 0b01010000
  | .StoreBTmp => 0b01010100
  | .LoadTmpA => 0b01011000
  | .LoadTmpB => 0b01011100
  | .StoreHealthTmp => 0b01000000
  | .StoreHungerTmp => 0b01000100
  | .StoreLOSCTmp => 0b01001000
  | .UAddA => 0b10000001
  | .UAddB => 0b10000101
  | .IAddA => 0b10001001
  | .IAddB => 0b10001101
  | .BitAndATmp => 0b11000001
  | .BitAndBTmp => 0b11000101
  | .BitOrATmp => 0b11100001
  | .BitOrBTmp => 0b11100101
  | .BitXorATmp => 0b11110001
  | .BitXorBTmp => 0b11110101

/-- Derived `ToPrimitive::to_u8`: the discriminant, provided it fits in a
`u8` (it always does here, made explicit by the range check). -/
def to_u8 (v : Instruction) : Option Nat :=
  if discr v < 2 ^ 8 then some (discr v) else none

/-- `impl TryFrom<Instruction> for u8` from `impl_converts!(Instruction)`:
`value.to_u8().map_or(Err(()), |val| Ok(val))`. -/
def u8_try_from (v : Instruction) : Except Unit Nat :=
  match to_u8 v with
  | some val => .ok val
  | none => .error ()

/-- Derived `FromPrimitive::from_u8`: maps a byte back to the variant carrying
that discriminant, `none` for every unassigned byte. -/
def from_u8 (n : Nat) : Option Instruction :=
  match n with
  | 0b00000000 => some .None
  | 0b00000100 => some .Move
  | 0b00001000 => some .Jump
  | 0b00010000 => some .RotateCW
  | 0b00011000 => some .RotateCCW
  | 0b00100000 => some .ClearA
  | 0b00100100 => some .ClearB
  | 0b01000001 => some .Goto
  | 0b01100001 => some .GotoCondAGtB
  | 0b01100101 => some .GotoCondEq
  | 0b01001100 => some .SwapAB
  | 0b01010000 => some .StoreATmp
  | 0b01010100 => some .StoreBTmp
  | 0b01011000 => some .LoadTmpA
  | 0b01011100 => some .LoadTmpB
  | 0b01000000 => some .StoreHealthTmp
  | 0b01000100 => some .StoreHungerTmp
  | 0b01001000 => some .StoreLOSCTmp
  | 0b10000001 => some .UAddA
  | 0b10000101 => some .UAddB
  | 0b10001001 => some .IAddA
  | 0b10001101 => some .IAddB
  | 0b11000001 => some .BitAndATmp
  | 0b11000101 => some .BitAndBTmp
  | 0b11100001 => some .BitOrATmp
  | 0b11100101 => some .BitOrBTmp
  | 0b11110001 => some .BitXorATmp
  | 0b11110101 => some .BitXorBTmp
  | _ => none

/-- `impl TryFrom<u8> for Instruction` from `impl_converts!(Instruction)`:
`Instruction::from_u8(value).map_or(Err(()), |val| Ok(val))`. -/
def inst_try_from (n : Nat) : Except Unit Instruction :=
  match from_u8 n with
  | some val => .ok val
  | none => .error ()

/-- `Instruction::ARG_BIT_MASK`. -/
def ARG_BIT_MASK : Nat := 0b00000011

/-- `Result::unwrap_or` as used inside `get_args`. -/
def unwrap_or (r : Except Unit Nat) (default : Nat) : Nat :=
  match r with
  | .ok x => x
  | .error _ => default

/-- `Instruction::get_args` of `src/instructions.rs`:
`let inst = self.try_into().unwrap_or(0u8); (inst & Self::ARG_BIT_MASK).into()`. -/
def get_args (v : Instruction) : Nat :=
  unwrap_or (u8_try_from v) 0 &&& ARG_BIT_MASK

end InstructionsRs

namespace CreatureRs

/-- The instruction enum of `src/creature.rs`.  Same byte grammar as the
catalog of `src/instructions.rs` (top six bits opcode ID, bottom two bits
argument count) but with different variants and different discriminants. -/
inductive Instruction where
  | None
  | Move
  | Jump
  | RotateCW
  | RotateCCW
  | ClearA
  | ClearB
  | Goto
  | GotoCondAGtB
  | GotoCondEq
  | SwapAB
  | CopyATmp
  | LoadTmpA
  | LoadTmpB
  | StoreHealthTmp
  | StoreHungerTmp
  | StoreWasteTmp
  | StoreLOSCTmp
  | UAdd
  | IAdd
  | BitAndB
  | BitAnd
  | BitOrB
  | BitOr
  | BitXorB
  | BitXor
deriving DecidableEq, Repr, Fintype

/-- The `repr(u8)` discriminant assigned to each variant in the enum
declaration of `src/creature.rs` (written there in `0bXXXXXX_YY` form). -/
def discr : Instruction → Nat
  | .None => 0b00000000
  | .Move => 0b00000100
  | .Jump => 0b00001000
  | .RotateCW => 0b00001100
  | .RotateCCW => 0b00010000
  | .ClearA => 0b00010100
  | .ClearB => 0b00011000
  | .Goto => 0b00011101
  | .GotoCondAGtB => 0b00100001
  | .GotoCondEq => 0b00100101
  | .SwapAB => 0b00101000
  | .CopyATmp => 0b00101100
  | .LoadTmpA => 0b00110000
  | .LoadTmpB => 0b00110100
  | .StoreHealthTmp => 0b00111000
  | .StoreHungerTmp => 0b00111100
  | .StoreWasteTmp => 0b01011000
  | .StoreLOSCTmp => 0b01000000
  | .UAdd => 0b01000101
  | .IAdd => 0b01001001
  | .BitAndB => 0b01001100
  | .BitAnd => 0b01001101
  | .BitOrB => 0b01010000
  | .BitOr => 0b01010001
  | .BitXorB => 0b01010100
  | .BitXor => 0b01010101

/-- Derived `ToPrimitive::to_u8` for the `src/creature.rs` enum. -/
def to_u8 (v : Instruction) : Option Nat :=
  if discr v < 2 ^ 8 then some (discr v) else none

/-- `impl TryFrom<Instruction> for u8` of `src/creature.rs`:
`value.to_u8().map_or(Err(()), |val| Ok(val))`. -/
def u8_try_from (v : Instruction) : Except Unit Nat :=
  match to_u8 v with
  | some val => .ok val
  | none => .error ()

/-- Derived `FromPrimitive::from_u8` for the `src/creature.rs` enum. -/
def from_u8 (n : Nat) : Option Instruction :=
  match n with
  | 0b00000000 => some .None
  | 0b00000100 => some .Move
  | 0b00001000 => some .Jump
  | 0b00001100 => some .RotateCW
  | 0b00010000 => some .RotateCCW
  | 0b00010100 => some .ClearA
  | 0b00011000 => some .ClearB
  | 0b00011101 => some .Goto
  | 0b00100001 => some .GotoCondAGtB
  | 0b00100101 => some .GotoCondEq
  | 0b00101000 => some .SwapAB
  | 0b00101100 => some .CopyATmp
  | 0b00110000 => some .LoadTmpA
  | 0b00110100 => some .LoadTmpB
  | 0b00111000 => some .StoreHealthTmp
  | 0b00111100 => some .StoreHungerTmp
  | 0b01011000 => some .StoreWasteTmp
  | 0b01000000 => some .StoreLOSCTmp
  | 0b01000101 => some .UAdd
  | 0b01001001 => some .IAdd
  | 0b01001100 => some .BitAndB
  | 0b01001101 => some .BitAnd
  | 0b01010000 => some .BitOrB
  | 0b01010001 => some .BitOr
  | 0b01010100 => some .BitXorB
  | 0b01010101 => some .BitXor
  | _ => none

/-- `impl TryFrom<u8> for Instruction` of `src/creature.rs`:
`Self::from_u8(value).map_or(Err(()), |val| Ok(val))`. -/
def inst_try_from (n : Nat) : Except Unit Instruction :=
  match from_u8 n with
  | some val => .ok val
  | none => .error ()

/-- `Instruction::ARG_BIT_MASK` of `src/creature.rs`. -/
def ARG_BIT_MASK : Nat := 0b00000011

/-- `impl crate::processor::Instruction<u8> for Instruction` — `get_args` of
`src/creature.rs`:
`let inst = self.try_into().unwrap_or(0u8); (inst & Self::ARG_BIT_MASK).into()`. -/
def get_args (v : Instruction) : Nat :=
  InstructionsRs.unwrap_or (u8_try_from v) 0 &&& ARG_BIT_MASK

/-- `CreatureMemory` of `src/creature.rs`: three `u64` registers. -/
structure CreatureMemory where
  a : Nat
  b : Nat
  tmp : Nat
deriving DecidableEq, Repr

/-- `impl Default for CreatureMemory`: `Self { a: 0, b: 0, tmp: 0 }`. -/
def CreatureMemory.mkDefault : CreatureMemory :=
  { a := 0, b := 0, tmp := 0 }

/-- `CreatureMemory::new`: `Self::default()`. -/
def CreatureMemory.new : CreatureMemory :=
  CreatureMemory.mkDefault

/-- `ProcessorMemory::get_mem_a` for `CreatureMemory`. -/
def get_mem_a (m : CreatureMemory) : Nat := m.a

/-- `ProcessorMemory::get_mem_b` for `CreatureMemory`. -/
def get_mem_b (m : CreatureMemory) : Nat := m.b

/-- `ProcessorMemory::get_mem_tmp` for `CreatureMemory`. -/
def get_mem_tmp (m : CreatureMemory) : Nat := m.tmp

/-- `ProcessorMemory::set_mem_a` for `CreatureMemory` (state passed
explicitly: returns the updated memory). -/
def set_mem_a (m : CreatureMemory) (value : Nat) : CreatureMemory :=
  { m with a := value }

/-- `ProcessorMemory::set_mem_b` for `CreatureMemory`. -/
def set_mem_b (m : CreatureMemory) (value : Nat) : CreatureMemory :=
  { m with b := value }

/-- `ProcessorMemory::set_mem_tmp` for `CreatureMemory`. -/
def set_mem_tmp (m : CreatureMemory) (value : Nat) : CreatureMemory :=
  { m with tmp := value }

/-- `Creature` of `src/creature.rs`: cycle counter, current tape offset, and
the instruction byte tape. -/
structure Creature where
  cycle : Nat
  current : Nat
  instructions : List Nat
deriving DecidableEq, Repr

/-- `Creature::new_with`: `Self { cycle: 0, current: 0, instructions }`. -/
def Creature.new_with (instructions : List Nat) : Creature :=
  { cycle := 0, current := 0, instructions := instructions }

/-- `Creature::new`: `Self::new_with(vec![])`. -/
def Creature.new : Creature :=
  Creature.new_with []

/-- `impl Default for Creature`: `Self::new()`. -/
def Creature.mkDefault : Creature :=
  Creature.new

end CreatureRs

namespace MainRs

/-- The prototype instruction enum of `src/main.rs`.  Its doc comment assigns
the top four bits to the opcode ID and the bottom four bits to the argument
count. -/
inductive Instruction where
  | None
  | Move
  | Rotate
deriving DecidableEq, Repr, Fintype

/-- The `repr(u8)` discriminant of each `src/main.rs` variant. -/
def discr : Instruction → Nat
  | .None => 0b00010000
  | .Move => 0b00100001
  | .Rotate => 0b00110001

/-- Derived `ToPrimitive::to_u8` for the `src/main.rs` enum. -/
def to_u8 (v : Instruction) : Option Nat :=
  if discr v < 2 ^ 8 then some (discr v) else none

/-- `impl TryFrom<Instruction> for u8` from `impl_converts!(Instruction)` in
`src/main.rs`. -/
def u8_try_from (v : Instruction) : Except Unit Nat :=
  match to_u8 v with
  | some val => .ok val
  | none => .error ()

/-- `Instruction::ARG_BITS` of `src/main.rs`. -/
def ARG_BITS : Nat := 0b1111

/-- `Instruction::get_args` of `src/main.rs`:
`let inst: u8 = (*self).try_into().expect(...); (inst & Self::ARG_BITS).into()`.
The `expect` panic path is modelled as `none`. -/
def get_args (v : Instruction) : Option Nat :=
  match u8_try_from v with
  | .ok inst => some (inst &&& ARG_BITS)
  | .error _ => none

end MainRs

namespace ProcessorRs

/-- The `Instruction<Prim>` trait of `src/processor.rs`, reduced to the one
method the processor code uses (`get_args`); the `Prim` conversion parameter
is not needed by the builders. -/
class Instruction (Inst : Type) where
  get_args : Inst → Nat

/-- `InstructionCall` of `src/processor.rs`: an instruction paired with three
optional argument slots.  The `InstType` phantom field and the private
allocation marker carry no data and are dropped. -/
structure InstructionCall (Inst : Type) (ArgType : Type) where
  instruction : Inst
  args : Option ArgType × Option ArgType × Option ArgType
deriving DecidableEq, Repr

/-- `InstructionCall::new_raw`: builds a call without verifying the argument
count (module-private in the source). -/
def new_raw {Inst ArgType : Type} (instruction : Inst)
    (arg1 arg2 arg3 : Option ArgType) : InstructionCall Inst ArgType :=
  { instruction := instruction, args := (arg1, arg2, arg3) }

/-- `InstructionCall::new_3_arg`: checks `instruction.get_args() != 3` then
wraps three `Some` arguments. -/
def new_3_arg {Inst ArgType : Type} [Instruction Inst] (instruction : Inst)
    (arg1 arg2 arg3 : ArgType) : Except Unit (InstructionCall Inst ArgType) :=
  if Instruction.get_args instruction ≠ 3 then .error ()
  else .ok (new_raw instruction (some arg1) (some arg2) (some arg3))

/-- `InstructionCall::new_2_arg`: checks `instruction.get_args() != 2` then
wraps two `Some` arguments, third slot `None`. -/
def new_2_arg {Inst ArgType : Type} [Instruction Inst] (instruction : Inst)
    (arg1 arg2 : ArgType) : Except Unit (InstructionCall Inst ArgType) :=
  if Instruction.get_args instruction ≠ 2 then .error ()
  else .ok (new_raw instruction (some arg1) (some arg2) none)

/-- `InstructionCall::new_1_arg`: checks `instruction.get_args() != 1` then
wraps one `Some` argument, remaining slots `None`. -/
def new_1_arg {Inst ArgType : Type} [Instruction Inst] (instruction : Inst)
    (arg1 : ArgType) : Except Unit (InstructionCall Inst ArgType) :=
  if Instruction.get_args instruction ≠ 1 then .error ()
  else .ok (new_raw instruction (some arg1) none none)

/-- `InstructionCall::new_0_arg`: checks `instruction.get_args() != 0` then
wraps the instruction with all argument slots `None`. -/
def new_0_arg {Inst ArgType : Type} [Instruction Inst] (instruction : Inst) :
    Except Unit (InstructionCall Inst ArgType) :=
  if Instruction.get_args instruction ≠ 0 then .error ()
  else .ok (new_raw instruction none none none)

/-- Number of `Some` argument slots of a call (the "popcount of present
arguments" of the spec's invariant). -/
def countSome {ArgType : Type}
    (args : Option ArgType × Option ArgType × Option ArgType) : Nat :=
  (if args.1.isSome then 1 else 0) + (if args.2.1.isSome then 1 else 0) +
    (if args.2.2.isSome then 1 else 0)

/-- A call is well formed when its present-argument count matches its
instruction's declared arity. -/
def wellFormed {Inst ArgType : Type} [Instruction Inst]
    (call : InstructionCall Inst ArgType) : Prop :=
  countSome call.args = Instruction.get_args call.instruction

instance {Inst ArgType : Type} [Instruction Inst]
    (call : InstructionCall Inst ArgType) : Decidable (wellFormed call) := by
  unfold wellFormed
  infer_instance

end ProcessorRs

/-- `impl crate::processor::Instruction<u8> for Instruction` of
`src/creature.rs`, whose `get_args` is `CreatureRs.get_args`. -/
instance : ProcessorRs.Instruction CreatureRs.Instruction :=
  ⟨CreatureRs.get_args⟩

/-- The `src/instructions.rs` enum declares `get_args` as an inherent method
with the same body; it is wired to the processor trait here so the builder
statements can quantify over this catalog as well. -/
instance : ProcessorRs.Instruction InstructionsRs.Instruction :=
  ⟨InstructionsRs.get_args⟩

namespace SpecModel

/-- Modelled from the spec: the read-only agent attribute snapshot (health,
hunger, waste, line-of-sight color) supplied by the external agent attribute
collaborator of spec section 6; no implementation exists under `src/`. -/
structure AgentAttrs where
  health : Nat
  hunger : Nat
  waste : Nat
  losc : Nat
deriving DecidableEq, Repr

/-- Modelled from the spec: register-memory semantics of `execute` from the
canonical opcode table of spec section 4.4, for the `src/creature.rs`
instruction catalog.  `src/processor.rs` only declares the
`InstructionProcessor` trait; no implementation of `execute` exists under
`src/`.  Movement and jump opcodes touch only external position/tape state,
so they leave the registers unchanged here; `u64` arithmetic wraps at
`2 ^ 64`; a missing first argument reads as 0 (unreachable on well-formed
calls). -/
def applyCall (attrs : AgentAttrs)
    (call : ProcessorRs.InstructionCall CreatureRs.Instruction Nat)
    (m : CreatureRs.CreatureMemory) : CreatureRs.CreatureMemory :=
  let arg := call.args.1.getD 0
  match call.instruction with
  | .None => m
  | .Move => m
  | .Jump => m
  | .RotateCW => m
  | .RotateCCW => m
  | .ClearA => { m with a := 0 }
  | .ClearB => { m with b := 0 }
  | .Goto => m
  | .GotoCondAGtB => m
  | .GotoCondEq => m
  | .SwapAB => { m with a := m.b, b := m.a }
  | .CopyATmp => { m with tmp := m.a }
  | .LoadTmpA => { m with a := m.tmp, tmp := 0 }
  | .LoadTmpB => { m with b := m.tmp, tmp := 0 }
  | .StoreHealthTmp => { m with tmp := attrs.health }
  | .StoreHungerTmp => { m with tmp := attrs.hunger }
  | .StoreWasteTmp => { m with tmp := attrs.waste }
  | .StoreLOSCTmp => { m with tmp := attrs.losc }
  | .UAdd => { m with a := (m.a + arg) % 2 ^ 64 }
  | .IAdd =>
    { m with a := (m.a + (if arg < 128 then arg else arg + 2 ^ 64 - 256)) % 2 ^ 64 }
  | .BitAndB => { m with a := m.a &&& m.b }
  | .BitAnd => { m with a := m.a &&& arg }
  | .BitOrB => { m with a := m.a ||| m.b }
  | .BitOr => { m with a := m.a ||| arg }
  | .BitXorB => { m with a := m.a ^^^ m.b }
  | .BitXor => { m with a := m.a ^^^ arg }

/-- Modelled from the spec: processor state of spec section 4.4 — a `u64`
cycle counter (monotonically increasing, never reset) together with the owned
register memory and the agent attribute capability; the repository only
declares the `InstructionProcessor` trait and has no implementing type under
`src/`. -/
structure Processor where
  cycle : Nat
  mems : CreatureRs.CreatureMemory
  attrs : AgentAttrs
deriving DecidableEq, Repr

/-- Modelled from the spec: `InstructionProcessor::get_cycle_number`. -/
def get_cycle_number (p : Processor) : Nat := p.cycle

/-- Modelled from the spec: `InstructionProcessor::get_mems`. -/
def get_mems (p : Processor) : CreatureRs.CreatureMemory := p.mems

/-- Modelled from the spec: `InstructionProcessor::execute` per spec
section 4.4 — applies the instruction's semantics to the register memory and
always increments the cycle counter by one, with no failure path ("this
operation is total over its input type"). -/
def execute (p : Processor)
    (call : ProcessorRs.InstructionCall CreatureRs.Instruction Nat) :
    Processor :=
  { p with cycle := p.cycle + 1, mems := applyCall p.attrs call p.mems }

end SpecModel

/-! Theorems settling the claims. -/

/-- C1: for every variant of both instruction catalogs, converting to a byte
succeeds (yielding the declared discriminant) and converting that byte back
yields the same variant, both through `from_u8` (`Some v`) and through
`TryFrom<u8>` (`Ok v`); consequently the encoding is injective — distinct
variants encode to distinct bytes. -/
theorem instruction_byte_round_trip :
    (∀ v : InstructionsRs.Instruction,
      InstructionsRs.u8_try_from v = .ok (InstructionsRs.discr v) ∧
      InstructionsRs.from_u8 (InstructionsRs.discr v) = some v ∧
      InstructionsRs.inst_try_from (InstructionsRs.discr v) = .ok v) ∧
    (∀ v : CreatureRs.Instruction,
      CreatureRs.u8_try_from v = .ok (CreatureRs.discr v) ∧
      CreatureRs.from_u8 (CreatureRs.discr v) = some v ∧
      CreatureRs.inst_try_from (CreatureRs.discr v) = .ok v) ∧
    (∀ v w : InstructionsRs.Instruction,
      InstructionsRs.discr v = InstructionsRs.discr w → v = w) ∧
    (∀ v w : CreatureRs.Instruction,
      CreatureRs.discr v = CreatureRs.discr w → v = w) := by
  refine ⟨by decide, by decide, by decide, by decide⟩

/-- Witness for C1: the injectivity component applied at the concrete pair
`(Move, Move)` whose encodings coincide, and the round trip at `Goto`. -/
theorem instruction_byte_round_trip_witness :
    CreatureRs.from_u8 (CreatureRs.discr CreatureRs.Instruction.Goto) =
      some CreatureRs.Instruction.Goto ∧
    InstructionsRs.Instruction.Move = InstructionsRs.Instruction.Move :=
  ⟨(instruction_byte_round_trip.2.1 CreatureRs.Instruction.Goto).2.1,
    instruction_byte_round_trip.2.2.1 InstructionsRs.Instruction.Move
      InstructionsRs.Instruction.Move rfl⟩

/-- C2: for every variant of both catalogs, `get_args` equals the low two
bits of the variant's byte encoding, hence lies in `{0, 1, 2, 3}`. -/
theorem get_args_low_two_bits :
    (∀ v : InstructionsRs.Instruction,
      InstructionsRs.get_args v = InstructionsRs.discr v &&& 0b11 ∧
      InstructionsRs.get_args v < 4) ∧
    (∀ v : CreatureRs.Instruction,
      CreatureRs.get_args v = CreatureRs.discr v &&& 0b11 ∧
      CreatureRs.get_args v < 4) := by
  refine ⟨by decide, by decide⟩

/-- C6: a freshly instantiated agent is zeroed — `CreatureMemory::new` and
`Default` give `a = b = tmp = 0`, and `Creature::new_with` (hence
`Creature::new` and `Default`) gives `cycle = 0` and `current = 0` with the
supplied tape stored unchanged. -/
theorem fresh_agent_state_zeroed :
    CreatureRs.CreatureMemory.new = { a := 0, b := 0, tmp := 0 } ∧
    CreatureRs.CreatureMemory.mkDefault = { a := 0, b := 0, tmp := 0 } ∧
    (∀ tape : List Nat,
      (CreatureRs.Creature.new_with tape).cycle = 0 ∧
      (CreatureRs.Creature.new_with tape).current = 0 ∧
      (CreatureRs.Creature.new_with tape).instructions = tape) ∧
    (CreatureRs.Creature.new.cycle = 0 ∧ CreatureRs.Creature.new.current = 0) ∧
    (CreatureRs.Creature.mkDefault.cycle = 0 ∧
      CreatureRs.Creature.mkDefault.current = 0) :=
  ⟨rfl, rfl, fun _ => ⟨rfl, rfl, rfl⟩, ⟨rfl, rfl⟩, ⟨rfl, rfl⟩⟩

/-- C7: the three registers are independent — each setter changes exactly its
own field and each getter returns exactly the value last stored in its own
field, for every starting memory and every word value. -/
theorem registers_independent :
    ∀ (m : CreatureRs.CreatureMemory) (value : Nat),
      (CreatureRs.get_mem_a (CreatureRs.set_mem_a m value) = value ∧
       CreatureRs.get_mem_b (CreatureRs.set_mem_a m value) = CreatureRs.get_mem_b m ∧
       CreatureRs.get_mem_tmp (CreatureRs.set_mem_a m value) = CreatureRs.get_mem_tmp m) ∧
      (CreatureRs.get_mem_b (CreatureRs.set_mem_b m value) = value ∧
       CreatureRs.get_mem_a (CreatureRs.set_mem_b m value) = CreatureRs.get_mem_a m ∧
       CreatureRs.get_mem_tmp (CreatureRs.set_mem_b m value) = CreatureRs.get_mem_tmp m) ∧
      (CreatureRs.get_mem_tmp (CreatureRs.set_mem_tmp m value) = value ∧
       CreatureRs.get_mem_a (CreatureRs.set_mem_tmp m value) = CreatureRs.get_mem_a m ∧
       CreatureRs.get_mem_b (CreatureRs.set_mem_tmp m value) = CreatureRs.get_mem_b m) :=
  fun _ _ => ⟨⟨rfl, rfl, rfl⟩, ⟨rfl, rfl, rfl⟩, ⟨rfl, rfl, rfl⟩⟩

/-- C9: the variant-to-byte conversion inside `get_args` succeeds for every
variant of all three instruction enums, so the `unwrap_or(0u8)` fallback of
`src/instructions.rs` and `src/creature.rs` and the `expect` of the
`src/main.rs` prototype are unreachable and each `get_args` is total. -/
theorem get_args_fallback_unreachable :
    (∀ v : InstructionsRs.Instruction,
      InstructionsRs.u8_try_from v = .ok (InstructionsRs.discr v) ∧
      InstructionsRs.get_args v = InstructionsRs.discr v &&& InstructionsRs.ARG_BIT_MASK) ∧
    (∀ v : CreatureRs.Instruction,
      CreatureRs.u8_try_from v = .ok (CreatureRs.discr v) ∧
      CreatureRs.get_args v = CreatureRs.discr v &&& CreatureRs.ARG_BIT_MASK) ∧
    (∀ v : MainRs.Instruction,
      MainRs.u8_try_from v = .ok (MainRs.discr v) ∧
      MainRs.get_args v = some (MainRs.discr v &&& MainRs.ARG_BITS)) := by
  refine ⟨by decide, by decide, by decide⟩

/-- C3: for every instruction and every N in `{0, 1, 2, 3}`, the arity-N
builder returns `Ok` exactly when `get_args` is N (and `Err(())` otherwise),
and on success the call stores exactly N `Some` argument slots filled
left-to-right with the remaining slots `None`. -/
theorem builder_arity_sound {Inst ArgType : Type} [ProcessorRs.Instruction Inst]
    (v : Inst) (a1 a2 a3 : ArgType) :
    (@ProcessorRs.new_0_arg Inst ArgType _ v =
      if ProcessorRs.Instruction.get_args v = 0 then
        .ok (ProcessorRs.new_raw v none none none) else .error ()) ∧
    (ProcessorRs.new_1_arg v a1 =
      if ProcessorRs.Instruction.get_args v = 1 then
        .ok (ProcessorRs.new_raw v (some a1) none none) else .error ()) ∧
    (ProcessorRs.new_2_arg v a1 a2 =
      if ProcessorRs.Instruction.get_args v = 2 then
        .ok (ProcessorRs.new_raw v (some a1) (some a2) none) else .error ()) ∧
    (ProcessorRs.new_3_arg v a1 a2 a3 =
      if ProcessorRs.Instruction.get_args v = 3 then
        .ok (ProcessorRs.new_raw v (some a1) (some a2) (some a3)) else .error ()) ∧
    (∀ c : ProcessorRs.InstructionCall Inst ArgType,
      (ProcessorRs.new_0_arg v = .ok c → ProcessorRs.countSome c.args = 0) ∧
      (ProcessorRs.new_1_arg v a1 = .ok c → ProcessorRs.countSome c.args = 1) ∧
      (ProcessorRs.new_2_arg v a1 a2 = .ok c → ProcessorRs.countSome c.args = 2) ∧
      (ProcessorRs.new_3_arg v a1 a2 a3 = .ok c →
        ProcessorRs.countSome c.args = 3)) := by
  have e0 : @ProcessorRs.new_0_arg Inst ArgType _ v =
      if ProcessorRs.Instruction.get_args v = 0 then
        .ok (ProcessorRs.new_raw v none none none) else .error () := by
    by_cases h : ProcessorRs.Instruction.get_args v = 0 <;>
      simp [ProcessorRs.new_0_arg, h]
  have e1 : ProcessorRs.new_1_arg v a1 =
      if ProcessorRs.Instruction.get_args v = 1 then
        .ok (ProcessorRs.new_raw v (some a1) none none) else .error () := by
    by_cases h : ProcessorRs.Instruction.get_args v = 1 <;>
      simp [ProcessorRs.new_1_arg, h]
  have e2 : ProcessorRs.new_2_arg v a1 a2 =
      if ProcessorRs.Instruction.get_args v = 2 then
        .ok (ProcessorRs.new_raw v (some a1) (some a2) none) else .error () := by
    by_cases h : ProcessorRs.Instruction.get_args v = 2 <;>
      simp [ProcessorRs.new_2_arg, h]
  have e3 : ProcessorRs.new_3_arg v a1 a2 a3 =
      if ProcessorRs.Instruction.get_args v = 3 then
        .ok (ProcessorRs.new_raw v (some a1) (some a2) (some a3)) else .error () := by
    by_cases h : ProcessorRs.Instruction.get_args v = 3 <;>
      simp [ProcessorRs.new_3_arg, h]
  refine ⟨e0, e1, e2, e3, ?_⟩
  intro c
  rw [e0, e1, e2, e3]
  refine ⟨?_, ?_, ?_, ?_⟩ <;>
  · intro hc
    split at hc
    · injection hc with h
      subst h
      rfl
    · exact Except.noConfusion hc

/-- Witness for C3: the arity-1 builder applied to `Goto` (arity 1) succeeds
and the resulting call carries exactly one present argument. -/
theorem builder_arity_sound_witness :
    ProcessorRs.countSome
      (ProcessorRs.new_raw CreatureRs.Instruction.Goto (some 7)
        (none : Option Nat) none).args = 1 :=
  ((builder_arity_sound CreatureRs.Instruction.Goto 7 8 9).2.2.2.2
      (ProcessorRs.new_raw CreatureRs.Instruction.Goto (some 7) none none)).2.1
    (by decide)

/-- C4: every call obtainable through the four public arity-checked builders
(the only public constructors, `new_raw` being module-private) satisfies the
invariant that its number of `Some` argument slots equals its instruction's
declared arity. -/
theorem call_invariant {Inst ArgType : Type} [ProcessorRs.Instruction Inst]
    (v : Inst) (a1 a2 a3 : ArgType) (c : ProcessorRs.InstructionCall Inst ArgType)
    (h : ProcessorRs.new_0_arg v = .ok c ∨ ProcessorRs.new_1_arg v a1 = .ok c ∨
      ProcessorRs.new_2_arg v a1 a2 = .ok c ∨
      ProcessorRs.new_3_arg v a1 a2 a3 = .ok c) :
    ProcessorRs.countSome c.args = ProcessorRs.Instruction.get_args c.instruction := by
  rcases h with h | h | h | h
  all_goals
    first
    | unfold ProcessorRs.new_0_arg at h
    | unfold ProcessorRs.new_1_arg at h
    | unfold ProcessorRs.new_2_arg at h
    | unfold ProcessorRs.new_3_arg at h
  all_goals
    split at h
    · exact Except.noConfusion h
    · rename_i hg
      rw [not_ne_iff] at hg
      injection h with hc
      subst hc
      simp [ProcessorRs.countSome, ProcessorRs.new_raw, hg]

/-- Witness for C4: the arity-0 builder applied to `Move` (arity 0) yields a
call with zero present arguments, matching its instruction's arity. -/
theorem call_invariant_witness :
    ProcessorRs.countSome
      (ProcessorRs.new_raw CreatureRs.Instruction.Move (none : Option Nat)
        none none).args =
      ProcessorRs.Instruction.get_args
        (ProcessorRs.new_raw CreatureRs.Instruction.Move (none : Option Nat)
          none none).instruction :=
  call_invariant CreatureRs.Instruction.Move 1 2 3 _ (Or.inl (by decide))

set_option maxRecDepth 8192 in
/-- C5: over the full `u8` range, `TryFrom<u8>` fails exactly on unmapped
bytes — it returns `Ok` precisely when the byte is the encoding of some
variant, returns the recoverable `Err(())` on every byte with no assigned
variant, and on success the decoded variant re-encodes to the same byte; for
both instruction catalogs. -/
theorem from_byte_fails_exactly_unmapped :
    ∀ b : Nat, b < 256 →
      (((∃ v : InstructionsRs.Instruction, InstructionsRs.discr v = b) ↔
          ∃ v, InstructionsRs.inst_try_from b = .ok v) ∧
        ((∀ v : InstructionsRs.Instruction, InstructionsRs.discr v ≠ b) →
          InstructionsRs.inst_try_from b = .error ()) ∧
        (∀ v, InstructionsRs.inst_try_from b = .ok v →
          InstructionsRs.discr v = b)) ∧
      (((∃ v : CreatureRs.Instruction, CreatureRs.discr v = b) ↔
          ∃ v, CreatureRs.inst_try_from b = .ok v) ∧
        ((∀ v : CreatureRs.Instruction, CreatureRs.discr v ≠ b) →
          CreatureRs.inst_try_from b = .error ()) ∧
        (∀ v, CreatureRs.inst_try_from b = .ok v → CreatureRs.discr v = b)) := by
  have hA1 : ∀ b : Nat, b < 256 →
      ((∃ v : InstructionsRs.Instruction, InstructionsRs.discr v = b) ↔
        ∃ v, InstructionsRs.inst_try_from b = .ok v) := by decide
  have hA2 : ∀ b : Nat, b < 256 →
      ((∀ v : InstructionsRs.Instruction, InstructionsRs.discr v ≠ b) →
        InstructionsRs.inst_try_from b = .error ()) := by decide
  have hA3 : ∀ b : Nat, b < 256 →
      (∀ v, InstructionsRs.inst_try_from b = .ok v →
        InstructionsRs.discr v = b) := by decide
  have hB1 : ∀ b : Nat, b < 256 →
      ((∃ v : CreatureRs.Instruction, CreatureRs.discr v = b) ↔
        ∃ v, CreatureRs.inst_try_from b = .ok v) := by decide
  have hB2 : ∀ b : Nat, b < 256 →
      ((∀ v : CreatureRs.Instruction, CreatureRs.discr v ≠ b) →
        CreatureRs.inst_try_from b = .error ()) := by decide
  have hB3 : ∀ b : Nat, b < 256 →
      (∀ v, CreatureRs.inst_try_from b = .ok v → CreatureRs.discr v = b) := by
    decide
  intro b hb
  exact ⟨⟨hA1 b hb, hA2 b hb, hA3 b hb⟩, ⟨hB1 b hb, hB2 b hb, hB3 b hb⟩⟩

/-- Witness for C5: byte 1 is unmapped in the first catalog and decoding
fails recoverably there; byte 4 decodes to `Move` in the second catalog and
re-encodes to 4. -/
theorem from_byte_fails_exactly_unmapped_witness :
    InstructionsRs.inst_try_from 1 = .error () ∧
    CreatureRs.discr CreatureRs.Instruction.Move = 4 :=
  ⟨(from_byte_fails_exactly_unmapped 1 (by decide)).1.2.1 (by decide),
    (from_byte_fails_exactly_unmapped 4 (by decide)).2.2.2
      CreatureRs.Instruction.Move (by decide)⟩

/-- C8: `execute` is total over well-formed calls (it is a function with no
failure path) and each application increments the processor's cycle counter
by exactly one, no-op instructions included. -/
theorem execute_total_and_counts (p : SpecModel.Processor)
    (call : ProcessorRs.InstructionCall CreatureRs.Instruction Nat)
    (_h : ProcessorRs.wellFormed call) :
    SpecModel.get_cycle_number (SpecModel.execute p call) =
      SpecModel.get_cycle_number p + 1 := rfl

/-- Witness for C8: executing the no-op `None` instruction on a concrete
processor state advances the cycle counter from 41 to 42. -/
theorem execute_total_and_counts_witness :
    SpecModel.get_cycle_number
      (SpecModel.execute
        { cycle := 41, mems := { a := 1, b := 2, tmp := 3 },
          attrs := { health := 9, hunger := 8, waste := 7, losc := 6 } }
        (ProcessorRs.new_raw CreatureRs.Instruction.None none none none)) = 42 :=
  execute_total_and_counts _ _ (by decide)

/-- C10: no variant of either implemented catalog declares arity 2 or 3 —
every `get_args` value is 0 or 1 — so the builders `new_2_arg` and
`new_3_arg` return `Err(())` on every instruction of these catalogs and only
`new_0_arg` or `new_1_arg` can succeed. -/
theorem no_arity_two_or_three :
    (∀ v : InstructionsRs.Instruction,
      InstructionsRs.get_args v = 0 ∨ InstructionsRs.get_args v = 1) ∧
    (∀ v : CreatureRs.Instruction,
      CreatureRs.get_args v = 0 ∨ CreatureRs.get_args v = 1) ∧
    (∀ (ArgType : Type) (v : InstructionsRs.Instruction) (a1 a2 a3 : ArgType),
      ProcessorRs.new_2_arg v a1 a2 = .error () ∧
      ProcessorRs.new_3_arg v a1 a2 a3 = .error ()) ∧
    (∀ (ArgType : Type) (v : CreatureRs.Instruction) (a1 a2 a3 : ArgType),
      ProcessorRs.new_2_arg v a1 a2 = .error () ∧
      ProcessorRs.new_3_arg v a1 a2 a3 = .error ()) := by
  have h1 : ∀ v : InstructionsRs.Instruction,
      ProcessorRs.Instruction.get_args v = 0 ∨
        ProcessorRs.Instruction.get_args v = 1 := by decide
  have h2 : ∀ v : CreatureRs.Instruction,
      ProcessorRs.Instruction.get_args v = 0 ∨
        ProcessorRs.Instruction.get_args v = 1 := by decide
  refine ⟨h1, h2, ?_, ?_⟩
  · intro ArgType v a1 a2 a3
    rcases h1 v with h | h <;>
      exact ⟨by simp [ProcessorRs.new_2_arg, h],
        by simp [ProcessorRs.new_3_arg, h]⟩
  · intro ArgType v a1 a2 a3
    rcases h2 v with h | h <;>
      exact ⟨by simp [ProcessorRs.new_2_arg, h],
        by simp [ProcessorRs.new_3_arg, h]⟩
